import Mathlib

/-!
Verification of the perfrecord CLI front end (src/perfrecord/src/main.rs).

The file embeds the control flow of `main` and `start_recording` as pure
Lean functions. External calls (the `which` PATH lookup, the process
launcher, the task profiler constructor, the channel send, the sampler
run, file creation, the JSON write and the child wait) are modelled by an
environment record that fixes the result of each call; `start_recording`
then produces the ordered list of observable events together with the
way the invocation terminates (normal return, a propagated `MachError`,
or a Rust panic raised by `unwrap`/`expect`).
-/

namespace Perfrecord

/-- Kernel error wrapper (`MachError` in process_launcher): a raw kernel
status code. -/
structure MachError where
  code : Int
deriving DecidableEq, Repr

/-- Observable events of one `start_recording` invocation, in program
order:
* `resolveCommand` — the `which(command_name)` PATH lookup is performed;
* `spawnSuspended` — `ProcessLauncher::new` succeeds (per spec section 4.1
  the child is created in a stopped state);
* `newTaskProfiler` — `TaskProfiler::new` succeeds;
* `startExecution` — `launcher.start_execution()` unblocks the child;
* `sendTask` — the TaskProfiler is sent on the task channel;
* `samplerRun` — `sampler.run()` is invoked;
* `createFile` — `File::create(output_file)` succeeds;
* `writeJson` — the JSON document is written to the file;
* `serveFile` — `start_server_main` serves the profile (launch-when-done);
* `waitChild` — the child is waited on and reaped. -/
inductive Event
  | resolveCommand
  | spawnSuspended
  | newTaskProfiler
  | startExecution
  | sendTask
  | samplerRun
  | createFile
  | writeJson
  | serveFile
  | waitChild
deriving DecidableEq, Repr

/-- The panic sites of `start_recording`, one per `unwrap`/`expect` in the
source, identified by the message the source attaches. -/
inductive PanicMsg
  /-- `args.first().unwrap()` on an empty argument list. -/
  | unwrapNoneFirstArg
  /-- `.expect("Couldn't resolve command name")` after `which` fails. -/
  | resolveCommandName
  /-- `.expect("couldn't create TaskProfiler")`. -/
  | createTaskProfilerFailed
  /-- `.expect("couldn't send task to sampler")`. -/
  | sendTaskFailed
  /-- `.expect("Sampler ran into an error")`. -/
  | samplerRanIntoError
  /-- `File::create(output_file).unwrap()` on an IO error. -/
  | unwrapFileCreate
  /-- `.expect("Couldn't write JSON")`. -/
  | writeJsonFailed
  /-- `.expect("couldn't wait for child")`. -/
  | waitForChildFailed
deriving DecidableEq, Repr

/-- How one invocation terminates: normal return, a `MachError` propagated
with `?` to the caller, or a Rust panic (abnormal termination with a
message on stderr; the process exits with the nonzero panic status). -/
inductive Outcome
  | ok
  | err (e : MachError)
  | panicked (m : PanicMsg)
deriving DecidableEq, Repr

/-- The pid and task handle returned by a successful `ProcessLauncher::new`
(`get_id` and `take_task` in the source). -/
structure LaunchedProcess where
  pid : Nat
  task : Nat
deriving DecidableEq, Repr

/-- Results of the external calls `start_recording` makes, fixed up front:
the PATH resolution (`which`), the launcher construction, and the
success/failure of the remaining fallible calls in program order. -/
structure RecEnv where
  whichResult : Option String
  launcherResult : Except MachError LaunchedProcess
  taskProfilerOk : Bool
  sendOk : Bool
  samplerOk : Bool
  fileCreateOk : Bool
  writeOk : Bool
  waitOk : Bool

/-- Shallow embedding of `start_recording` (main.rs lines 110 to 156).
Returns the event trace in program order and the outcome. The source
order is: `args.first().unwrap()`; `which(command_name).expect(..)`;
channel and `Sampler::new` construction (pure, no event);
`ProcessLauncher::new(..)?`; `TaskProfiler::new(..).expect(..)`;
`launcher.start_execution()`; `task_sender.send(..).expect(..)`;
`sampler.run().expect(..)`; `File::create(output_file).unwrap()`;
`to_writer(..).expect(..)`; optional `start_server_main`;
`launcher.wait().expect(..)`. -/
def start_recording (env : RecEnv) (_output_file : String) (args : List String)
    (launch_when_done : Bool) : List Event × Outcome :=
  match args with
  | [] => ([], Outcome.panicked PanicMsg.unwrapNoneFirstArg)
  | _command_name :: _rest =>
    match env.whichResult with
    | none => ([Event.resolveCommand], Outcome.panicked PanicMsg.resolveCommandName)
    | some _command =>
      let t0 := [Event.resolveCommand]
      match env.launcherResult with
      | Except.error e => (t0, Outcome.err e)
      | Except.ok _launched =>
        let t1 := t0 ++ [Event.spawnSuspended]
        if env.taskProfilerOk then
          let t2 := t1 ++ [Event.newTaskProfiler]
          let t3 := t2 ++ [Event.startExecution]
          if env.sendOk then
            let t4 := t3 ++ [Event.sendTask]
            let t5 := t4 ++ [Event.samplerRun]
            if env.samplerOk then
              if env.fileCreateOk then
                let t6 := t5 ++ [Event.createFile]
                if env.writeOk then
                  let t7 := t6 ++ [Event.writeJson]
                  let t8 := if launch_when_done then t7 ++ [Event.serveFile] else t7
                  if env.waitOk then (t8 ++ [Event.waitChild], Outcome.ok)
                  else (t8, Outcome.panicked PanicMsg.waitForChildFailed)
                else (t6, Outcome.panicked PanicMsg.writeJsonFailed)
              else (t5, Outcome.panicked PanicMsg.unwrapFileCreate)
            else (t5, Outcome.panicked PanicMsg.samplerRanIntoError)
          else (t3, Outcome.panicked PanicMsg.sendTaskFailed)
        else (t1 ++ [Event.newTaskProfiler], Outcome.panicked PanicMsg.createTaskProfilerFailed)

/-- The parsed option set (`struct Opt` in the source). Flag values are
kept as the raw strings structopt receives; `interval` is parsed by the
program into an `f64` of seconds and `time_limit` likewise when present,
which we do not re-model since only the raw default values are at stake. -/
structure Opt where
  launch_when_done : Bool
  interval : String
  time_limit : Option String
  output_file : String
  rest : Option (List String)
  file_to_launch : Option String
  file_to_serve : Option String
deriving DecidableEq, Repr

/-- One command line: which flags the user supplied. `none` means the flag
was omitted. `command` is the external subcommand word list
(`Subcommands::Command(Vec<String>)`), `none` when no subcommand given. -/
structure CmdLine where
  launch_when_done : Bool
  interval_arg : Option String
  time_limit_arg : Option String
  out_arg : Option String
  command : Option (List String)
  launch_arg : Option String
  serve_arg : Option String

/-- structopt parsing of `Opt`: supplied values are taken as given and the
declared `default_value` strings are substituted for omitted flags
("0.001" for `--interval`, "profile.json" for `--out`); `--time-limit`,
`--launch`, `--serve` and the subcommand have no default. -/
def Opt.from_args (c : CmdLine) : Opt :=
  ⟨c.launch_when_done, c.interval_arg.getD "0.001", c.time_limit_arg,
    c.out_arg.getD "profile.json", c.command, c.launch_arg, c.serve_arg⟩

/-- The scalar parameters `main` hands to `start_recording` (output path,
command word list, optional time limit, interval, launch-when-done). -/
structure RecordingCall where
  output_file : String
  command : List String
  time_limit : Option String
  interval : String
  launch_when_done : Bool
deriving DecidableEq, Repr

/-- How `main` ends:
* `served file openInBrowser` — `start_server_main(&file, open_in_browser)`
  ran and `main` returned `Ok(())`;
* `usage` — "Error: missing command" plus the clap help text were printed
  and the process exited via `std::process::exit(1)`;
* `recorded call tr out` — `start_recording` was invoked with parameters
  `call` and produced trace `tr` and outcome `out` (an `Outcome.err`
  outcome is the `MachError` that `main` returns through `?`). -/
inductive MainResult
  | served (file : String) (openInBrowser : Bool)
  | usage
  | recorded (call : RecordingCall) (trace : List Event) (outcome : Outcome)
deriving DecidableEq, Repr

/-- Shallow embedding of `main` (main.rs lines 78 to 103): parse the
options, serve a file when `--launch` or `--serve` was given (the browser
opens exactly when `--launch` was), otherwise record the subcommand when
it is a nonempty word list, otherwise print usage and exit 1. -/
def mainRun (env : RecEnv) (c : CmdLine) : MainResult :=
  let opt := Opt.from_args c
  let open_in_browser := opt.file_to_launch.isSome
  let file_for_launching_or_serving := opt.file_to_launch.or opt.file_to_serve
  match file_for_launching_or_serving with
  | some file => MainResult.served file open_in_browser
  | none =>
    match opt.rest with
    | some command =>
      if command.isEmpty then MainResult.usage
      else
        let r := start_recording env opt.output_file command opt.launch_when_done
        MainResult.recorded
          ⟨opt.output_file, command, opt.time_limit, opt.interval, opt.launch_when_done⟩
          r.1 r.2
    | none => MainResult.usage

/-- The process exit status of a finished invocation: 0 on success, 1 both
for the explicit `std::process::exit(1)` and for `main` returning `Err`
(Rust reports a `Result::Err` from `main` with status 1), and the Rust
panic status 101 when an `unwrap`/`expect` fired. -/
def exitStatus : MainResult → Nat
  | MainResult.served _ _ => 0
  | MainResult.usage => 1
  | MainResult.recorded _ _ Outcome.ok => 0
  | MainResult.recorded _ _ (Outcome.err _) => 1
  | MainResult.recorded _ _ (Outcome.panicked _) => 101

/-- The parameters of the `start_recording` invocation `main` performed,
`none` when no recording was started. -/
def MainResult.recordingCall : MainResult → Option RecordingCall
  | MainResult.recorded call _ _ => some call
  | _ => none

/-- `occursBefore a b tr = true` iff some occurrence of `a` in `tr` is
followed (strictly later) by an occurrence of `b`. -/
def occursBefore (a b : Event) : List Event → Bool
  | [] => false
  | e :: rest => if e = a then rest.contains b else occursBefore a b rest

/-- The strict prefix of a trace before the first occurrence of `a`. -/
def takeUntil (a : Event) : List Event → List Event
  | [] => []
  | e :: rest => if e = a then [] else e :: takeUntil a rest

/-- Modelled from the spec: the execution state of the child process. The
`ProcessLauncher` implementation is not under src/; per spec section 4.1
it "creates the child process in a stopped state" and `start_execution()`
releases it, and no other modelled event changes the child state. -/
inductive ChildState
  | notLaunched
  | suspended
  | running
deriving DecidableEq, Repr

/-- Modelled from the spec: how each event affects the child state — a
successful launch leaves the child suspended, `start_execution` sets it
running, everything else leaves it unchanged. -/
def stepChild : ChildState → Event → ChildState
  | _, Event.spawnSuspended => ChildState.suspended
  | _, Event.startExecution => ChildState.running
  | s, _ => s

/-- The child state after a trace, starting from not-launched. -/
def childAfter (tr : List Event) : ChildState :=
  tr.foldl stepChild ChildState.notLaunched

/-- An environment in which every external call succeeds. -/
def envAllOk : RecEnv :=
  ⟨some "/usr/bin/true", Except.ok ⟨123, 456⟩, true, true, true, true, true, true⟩

/-- C1 counterexample: in a fully successful invocation of
`start_recording` the unblocking call `start_execution` occurs, the
TaskProfiler is sent on the task channel, yet no `sendTask` event is ever
followed by `startExecution` — the child is resumed before, not after,
the handoff to the Sampler. -/
theorem start_execution_not_after_send :
    Event.sendTask ∈ (start_recording envAllOk "profile.json" ["sleep", "2"] false).1 ∧
    Event.startExecution ∈ (start_recording envAllOk "profile.json" ["sleep", "2"] false).1 ∧
    occursBefore Event.sendTask Event.startExecution
      (start_recording envAllOk "profile.json" ["sleep", "2"] false).1 = false := by
  decide

/-- C1 (amended): in every invocation of `start_recording` that unblocks
the child, `start_execution` is called by `start_recording` itself after
the TaskProfiler is constructed, before the TaskProfiler is sent on the
task channel and before `sampler.run()` is invoked; the resume is not
performed by the Sampler. -/
theorem start_execution_after_construction_before_send
    (env : RecEnv) (out : String) (args : List String) (lwd : Bool)
    (h : Event.startExecution ∈ (start_recording env out args lwd).1) :
    occursBefore Event.newTaskProfiler Event.startExecution
      (start_recording env out args lwd).1 = true ∧
    (Event.sendTask ∈ (start_recording env out args lwd).1 →
      occursBefore Event.startExecution Event.sendTask
        (start_recording env out args lwd).1 = true) ∧
    (Event.samplerRun ∈ (start_recording env out args lwd).1 →
      occursBefore Event.startExecution Event.samplerRun
        (start_recording env out args lwd).1 = true) := by
  obtain ⟨w, l, tp, sd, sr, fc, wr, wt⟩ := env
  cases args with
  | nil => simp [start_recording] at h
  | cons a rest =>
    cases w <;> cases l <;> cases tp <;> cases sd <;> cases sr <;> cases fc <;>
      cases wr <;> cases wt <;> cases lwd <;>
      simp_all [start_recording, occursBefore]

/-- Witness for the amended C1 at a concrete, fully successful run. -/
theorem start_execution_after_construction_before_send_witness :
    occursBefore Event.newTaskProfiler Event.startExecution
      (start_recording envAllOk "profile.json" ["sleep", "2"] false).1 = true ∧
    (Event.sendTask ∈ (start_recording envAllOk "profile.json" ["sleep", "2"] false).1 →
      occursBefore Event.startExecution Event.sendTask
        (start_recording envAllOk "profile.json" ["sleep", "2"] false).1 = true) ∧
    (Event.samplerRun ∈ (start_recording envAllOk "profile.json" ["sleep", "2"] false).1 →
      occursBefore Event.startExecution Event.samplerRun
        (start_recording envAllOk "profile.json" ["sleep", "2"] false).1 = true) :=
  start_execution_after_construction_before_send envAllOk "profile.json"
    ["sleep", "2"] false (by decide)

/-- C4: in every successful invocation of `start_recording` the launcher
creates the child suspended, then the TaskProfiler is constructed, and
only then is execution unblocked via `start_execution`; under the
spec-modelled launcher semantics the child is still suspended at every
point of the trace before `start_execution`. -/
theorem child_suspended_until_start_execution
    (env : RecEnv) (out : String) (args : List String) (lwd : Bool)
    (h : (start_recording env out args lwd).2 = Outcome.ok) :
    occursBefore Event.spawnSuspended Event.newTaskProfiler
      (start_recording env out args lwd).1 = true ∧
    occursBefore Event.newTaskProfiler Event.startExecution
      (start_recording env out args lwd).1 = true ∧
    childAfter (takeUntil Event.startExecution (start_recording env out args lwd).1)
      = ChildState.suspended := by
  obtain ⟨w, l, tp, sd, sr, fc, wr, wt⟩ := env
  cases args with
  | nil => simp [start_recording] at h
  | cons a rest =>
    cases w <;> cases l <;> cases tp <;> cases sd <;> cases sr <;> cases fc <;>
      cases wr <;> cases wt <;> cases lwd <;>
      simp_all [start_recording, occursBefore, takeUntil, childAfter, stepChild]

/-- Witness for C4 at a concrete, fully successful run. -/
theorem child_suspended_until_start_execution_witness :
    occursBefore Event.spawnSuspended Event.newTaskProfiler
      (start_recording envAllOk "profile.json" ["ls"] true).1 = true ∧
    occursBefore Event.newTaskProfiler Event.startExecution
      (start_recording envAllOk "profile.json" ["ls"] true).1 = true ∧
    childAfter (takeUntil Event.startExecution
      (start_recording envAllOk "profile.json" ["ls"] true).1) = ChildState.suspended :=
  child_suspended_until_start_execution envAllOk "profile.json" ["ls"] true (by decide)

/-- C5: when the sampler has successfully produced the profile but the
output file cannot be created or the JSON cannot be written, the
invocation panics at the corresponding `unwrap`/`expect` (an abnormal,
message-carrying termination) and does not return successfully. -/
theorem output_failure_is_fatal
    (env : RecEnv) (out a : String) (rest : List String) (lwd : Bool)
    (hw : ∃ p, env.whichResult = some p)
    (hl : ∃ lp, env.launcherResult = Except.ok lp)
    (htp : env.taskProfilerOk = true) (hsd : env.sendOk = true)
    (hsr : env.samplerOk = true)
    (hout : env.fileCreateOk = false ∨ env.writeOk = false) :
    ((start_recording env out (a :: rest) lwd).2
        = Outcome.panicked PanicMsg.unwrapFileCreate ∨
      (start_recording env out (a :: rest) lwd).2
        = Outcome.panicked PanicMsg.writeJsonFailed) ∧
    (start_recording env out (a :: rest) lwd).2 ≠ Outcome.ok := by
  obtain ⟨w, l, tp, sd, sr, fc, wr, wt⟩ := env
  obtain ⟨p, hp⟩ := hw
  obtain ⟨lp, hlp⟩ := hl
  cases w <;> cases l <;> cases tp <;> cases sd <;> cases sr <;> cases fc <;>
    cases wr <;> cases wt <;> cases lwd <;>
    simp_all [start_recording]

/-- Witness for C5: the write fails after a successful sampler run. -/
theorem output_failure_is_fatal_witness :
    ((start_recording ⟨some "/bin/ls", Except.ok ⟨7, 8⟩, true, true, true, true, false, true⟩
        "profile.json" ["ls"] false).2 = Outcome.panicked PanicMsg.unwrapFileCreate ∨
      (start_recording ⟨some "/bin/ls", Except.ok ⟨7, 8⟩, true, true, true, true, false, true⟩
        "profile.json" ["ls"] false).2 = Outcome.panicked PanicMsg.writeJsonFailed) ∧
    (start_recording ⟨some "/bin/ls", Except.ok ⟨7, 8⟩, true, true, true, true, false, true⟩
      "profile.json" ["ls"] false).2 ≠ Outcome.ok :=
  output_failure_is_fatal ⟨some "/bin/ls", Except.ok ⟨7, 8⟩, true, true, true, true, false, true⟩
    "profile.json" "ls" [] false ⟨"/bin/ls", rfl⟩ ⟨⟨7, 8⟩, rfl⟩ rfl rfl rfl (Or.inr rfl)

/-- C7: the bare command name is resolved via the PATH lookup before the
child is ever launched, and when resolution fails the invocation panics
at `expect("Couldn't resolve command name")` with no child spawned and no
profile file created or written. -/
theorem which_failure_aborts_before_spawn
    (env : RecEnv) (out cn : String) (rest : List String) (lwd : Bool) :
    (Event.spawnSuspended ∈ (start_recording env out (cn :: rest) lwd).1 →
      occursBefore Event.resolveCommand Event.spawnSuspended
        (start_recording env out (cn :: rest) lwd).1 = true) ∧
    (env.whichResult = none →
      (start_recording env out (cn :: rest) lwd).2
          = Outcome.panicked PanicMsg.resolveCommandName ∧
      Event.spawnSuspended ∉ (start_recording env out (cn :: rest) lwd).1 ∧
      Event.createFile ∉ (start_recording env out (cn :: rest) lwd).1 ∧
      Event.writeJson ∉ (start_recording env out (cn :: rest) lwd).1) := by
  obtain ⟨w, l, tp, sd, sr, fc, wr, wt⟩ := env
  cases w <;> cases l <;> cases tp <;> cases sd <;> cases sr <;> cases fc <;>
    cases wr <;> cases wt <;> cases lwd <;>
    simp_all [start_recording, occursBefore]

/-- Witness for C7 at an environment whose PATH lookup fails. -/
theorem which_failure_aborts_before_spawn_witness :
    (start_recording ⟨none, Except.ok ⟨7, 8⟩, true, true, true, true, true, true⟩
        "profile.json" ["nosuch"] false).2
      = Outcome.panicked PanicMsg.resolveCommandName ∧
    Event.spawnSuspended ∉ (start_recording
      ⟨none, Except.ok ⟨7, 8⟩, true, true, true, true, true, true⟩
        "profile.json" ["nosuch"] false).1 ∧
    Event.createFile ∉ (start_recording
      ⟨none, Except.ok ⟨7, 8⟩, true, true, true, true, true, true⟩
        "profile.json" ["nosuch"] false).1 ∧
    Event.writeJson ∉ (start_recording
      ⟨none, Except.ok ⟨7, 8⟩, true, true, true, true, true, true⟩
        "profile.json" ["nosuch"] false).1 :=
  (which_failure_aborts_before_spawn
    ⟨none, Except.ok ⟨7, 8⟩, true, true, true, true, true, true⟩
    "profile.json" "nosuch" [] false).2 rfl

/-- A nonempty argument list never reaches the unwrap-on-None panic of
`args.first().unwrap()`. -/
theorem no_first_unwrap_of_cons
    (env : RecEnv) (out a : String) (rest : List String) (lwd : Bool) :
    (start_recording env out (a :: rest) lwd).2
      ≠ Outcome.panicked PanicMsg.unwrapNoneFirstArg := by
  obtain ⟨w, l, tp, sd, sr, fc, wr, wt⟩ := env
  cases w <;> cases l <;> cases tp <;> cases sd <;> cases sr <;> cases fc <;>
    cases wr <;> cases wt <;> cases lwd <;>
    simp_all [start_recording]

/-- C10: the `args.first().unwrap()` in `start_recording` cannot panic
under the call discipline of `main`: with a nonempty argument list
`start_recording` never produces the unwrap-on-None panic, and every
recording `main` starts has an outcome other than that panic, because
`main` checks the command word list is nonempty before calling. -/
theorem first_unwrap_unreachable
    (env : RecEnv) (out : String) (args : List String) (lwd : Bool) (c : CmdLine)
    (h : args ≠ []) :
    (start_recording env out args lwd).2
        ≠ Outcome.panicked PanicMsg.unwrapNoneFirstArg ∧
    (∀ call tr o, mainRun env c = MainResult.recorded call tr o →
      o ≠ Outcome.panicked PanicMsg.unwrapNoneFirstArg) := by
  constructor
  · cases args with
    | nil => exact absurd rfl h
    | cons a rest => exact no_first_unwrap_of_cons env out a rest lwd
  · intro call tr o hm
    obtain ⟨lwdc, ia, ta, oa, cmd, la, sa⟩ := c
    rcases la with _ | f
    · rcases sa with _ | g
      · rcases cmd with _ | command
        · simp [mainRun, Opt.from_args, Option.or] at hm
        · rcases command with _ | ⟨a, rest⟩
          · simp [mainRun, Opt.from_args, Option.or] at hm
          · simp only [mainRun, Opt.from_args, Option.or, List.isEmpty_cons,
              Bool.false_eq_true, if_false, MainResult.recorded.injEq] at hm
            rw [← hm.2.2]
            exact no_first_unwrap_of_cons env (oa.getD "profile.json") a rest lwdc
      · simp [mainRun, Opt.from_args, Option.or] at hm
    · simp [mainRun, Opt.from_args, Option.or] at hm

/-- Witness for C10 at a concrete nonempty argument list and command
line. -/
theorem first_unwrap_unreachable_witness :
    (start_recording envAllOk "profile.json" ["ls"] false).2
        ≠ Outcome.panicked PanicMsg.unwrapNoneFirstArg ∧
    (∀ call tr o,
      mainRun envAllOk ⟨false, none, none, none, some ["ls"], none, none⟩
          = MainResult.recorded call tr o →
      o ≠ Outcome.panicked PanicMsg.unwrapNoneFirstArg) :=
  first_unwrap_unreachable envAllOk "profile.json" ["ls"] false
    ⟨false, none, none, none, some ["ls"], none, none⟩ (by decide)

/-- When the PATH lookup succeeds and `ProcessLauncher::new` fails with a
`MachError`, `start_recording` returns that error through `?` right after
the resolution step. -/
theorem start_recording_launch_error
    (env : RecEnv) (out a : String) (rest : List String) (lwd : Bool)
    (e : MachError) (p : String)
    (hw : env.whichResult = some p) (herr : env.launcherResult = Except.error e) :
    start_recording env out (a :: rest) lwd = ([Event.resolveCommand], Outcome.err e) := by
  obtain ⟨w, l, tp, sd, sr, fc, wr, wt⟩ := env
  cases w <;> cases l <;> simp_all [start_recording]

/-- `main` with no launch or serve file and a nonempty subcommand starts a
recording with the parsed parameters. -/
theorem mainRun_recording
    (env : RecEnv) (lwdc : Bool) (ia ta oa : Option String)
    (a : String) (rest : List String) :
    mainRun env ⟨lwdc, ia, ta, oa, some (a :: rest), none, none⟩ =
      MainResult.recorded
        ⟨oa.getD "profile.json", a :: rest, ta, ia.getD "0.001", lwdc⟩
        (start_recording env (oa.getD "profile.json") (a :: rest) lwdc).1
        (start_recording env (oa.getD "profile.json") (a :: rest) lwdc).2 := rfl

/-- C2: a launch-level kernel failure (`ProcessLauncher::new` returning a
`MachError`) propagates to the top level: `main` returns the error, the
process exits with the nonzero status 1, and no profile file is created
or written. -/
theorem launch_error_propagates
    (env : RecEnv) (c : CmdLine) (cmd : List String) (e : MachError)
    (hl : c.launch_arg = none) (hs : c.serve_arg = none)
    (hc : c.command = some cmd) (hne : cmd ≠ [])
    (hw : ∃ p, env.whichResult = some p)
    (herr : env.launcherResult = Except.error e) :
    ∃ call tr, mainRun env c = MainResult.recorded call tr (Outcome.err e) ∧
      exitStatus (mainRun env c) = 1 ∧
      Event.createFile ∉ tr ∧ Event.writeJson ∉ tr := by
  obtain ⟨lwdc, ia, ta, oa, cmd0, la, sa⟩ := c
  obtain ⟨p, hp⟩ := hw
  rcases la with _ | f
  · rcases sa with _ | g
    · rcases cmd0 with _ | command
      · simp at hc
      · have hcc : command = cmd := by simpa using hc
        subst hcc
        cases command with
        | nil => exact absurd rfl hne
        | cons a rest =>
          have hm := mainRun_recording env lwdc ia ta oa a rest
          rw [start_recording_launch_error env (oa.getD "profile.json") a rest lwdc e p hp herr]
            at hm
          exact ⟨_, [Event.resolveCommand], by rw [hm], by rw [hm]; rfl,
            by decide, by decide⟩
    · simp at hs
  · simp at hl

/-- Witness for C2: the launcher fails with raw status 5. -/
theorem launch_error_propagates_witness :
    ∃ call tr,
      mainRun ⟨some "/bin/ls", Except.error ⟨5⟩, true, true, true, true, true, true⟩
          ⟨false, none, none, none, some ["ls"], none, none⟩
        = MainResult.recorded call tr (Outcome.err ⟨5⟩) ∧
      exitStatus (mainRun ⟨some "/bin/ls", Except.error ⟨5⟩, true, true, true, true, true, true⟩
          ⟨false, none, none, none, some ["ls"], none, none⟩) = 1 ∧
      Event.createFile ∉ tr ∧ Event.writeJson ∉ tr :=
  launch_error_propagates ⟨some "/bin/ls", Except.error ⟨5⟩, true, true, true, true, true, true⟩
    ⟨false, none, none, none, some ["ls"], none, none⟩ ["ls"] ⟨5⟩
    rfl rfl rfl (by decide) ⟨"/bin/ls", rfl⟩ rfl

/-- C3: with no file to launch or serve and no subcommand (or an empty
command word list), `main` prints the usage text, exits with status 1,
and starts no recording. -/
theorem missing_command_prints_usage (env : RecEnv) (c : CmdLine)
    (hl : c.launch_arg = none) (hs : c.serve_arg = none)
    (hc : c.command = none ∨ c.command = some []) :
    mainRun env c = MainResult.usage ∧ exitStatus (mainRun env c) = 1 ∧
    (mainRun env c).recordingCall = none := by
  obtain ⟨lwdc, ia, ta, oa, cmd0, la, sa⟩ := c
  rcases la with _ | f
  · rcases sa with _ | g
    · rcases cmd0 with _ | command
      · exact ⟨rfl, rfl, rfl⟩
      · rcases hc with hc | hc
        · simp at hc
        · have hcc : command = [] := by simpa using hc
          subst hcc
          exact ⟨rfl, rfl, rfl⟩
    · simp at hs
  · simp at hl

/-- Witness for C3 at a command line with no subcommand at all. -/
theorem missing_command_prints_usage_witness :
    mainRun envAllOk ⟨false, none, none, none, none, none, none⟩ = MainResult.usage ∧
    exitStatus (mainRun envAllOk ⟨false, none, none, none, none, none, none⟩) = 1 ∧
    (mainRun envAllOk ⟨false, none, none, none, none, none, none⟩).recordingCall = none :=
  missing_command_prints_usage envAllOk ⟨false, none, none, none, none, none, none⟩
    rfl rfl (Or.inl rfl)

/-- C6: the parsed options default the interval to "0.001" seconds and the
output path to "profile.json" when the flags are omitted, keep the time
limit optional, and `main` hands exactly these defaults together with the
command word list to `start_recording`. -/
theorem omitted_flags_use_defaults (env : RecEnv) (c : CmdLine) (cmd : List String)
    (hi : c.interval_arg = none) (ho : c.out_arg = none)
    (hl : c.launch_arg = none) (hs : c.serve_arg = none)
    (hc : c.command = some cmd) (hne : cmd ≠ []) :
    (Opt.from_args c).interval = "0.001" ∧
    (Opt.from_args c).output_file = "profile.json" ∧
    (Opt.from_args c).time_limit = c.time_limit_arg ∧
    ∃ tr o,
      mainRun env c = MainResult.recorded
        ⟨"profile.json", cmd, c.time_limit_arg, "0.001", c.launch_when_done⟩ tr o := by
  obtain ⟨lwdc, ia, ta, oa, cmd0, la, sa⟩ := c
  rcases la with _ | f
  · rcases sa with _ | g
    · rcases ia with _ | x
      · rcases oa with _ | y
        · rcases cmd0 with _ | command
          · simp at hc
          · have hcc : command = cmd := by simpa using hc
            subst hcc
            cases command with
            | nil => exact absurd rfl hne
            | cons a rest => exact ⟨rfl, rfl, rfl, _, _, rfl⟩
        · simp at ho
      · simp at hi
    · simp at hs
  · simp at hl

/-- Witness for C6 at a concrete command line that omits every optional
flag except the subcommand. -/
theorem omitted_flags_use_defaults_witness :
    (Opt.from_args ⟨false, none, none, none, some ["ls", "-a"], none, none⟩).interval
        = "0.001" ∧
    (Opt.from_args ⟨false, none, none, none, some ["ls", "-a"], none, none⟩).output_file
        = "profile.json" ∧
    (Opt.from_args ⟨false, none, none, none, some ["ls", "-a"], none, none⟩).time_limit
        = (⟨false, none, none, none, some ["ls", "-a"], none, none⟩ : CmdLine).time_limit_arg ∧
    ∃ tr o,
      mainRun envAllOk ⟨false, none, none, none, some ["ls", "-a"], none, none⟩
        = MainResult.recorded ⟨"profile.json", ["ls", "-a"], none, "0.001", false⟩ tr o :=
  omitted_flags_use_defaults envAllOk ⟨false, none, none, none, some ["ls", "-a"], none, none⟩
    ["ls", "-a"] rfl rfl rfl rfl rfl (by decide)

/-- C8: when both `--launch` and `--serve` are given, the `--launch` file
is the one served and the browser is opened; with only `--serve` the
served file is the `--serve` one and the browser is not opened; whenever
`main` serves a file, the browser opens exactly when `--launch` was
supplied. -/
theorem launch_takes_precedence_over_serve (env : RecEnv) (c : CmdLine) (f g : String) :
    (c.launch_arg = some f → c.serve_arg = some g →
      mainRun env c = MainResult.served f true) ∧
    (c.launch_arg = none → c.serve_arg = some g →
      mainRun env c = MainResult.served g false) ∧
    (∀ file b, mainRun env c = MainResult.served file b →
      (b = true ↔ c.launch_arg.isSome = true)) := by
  obtain ⟨lwdc, ia, ta, oa, cmd0, la, sa⟩ := c
  refine ⟨?_, ?_, ?_⟩
  · intro hl hs
    have hf : la = some f := by simpa using hl
    subst hf
    rfl
  · intro hl hs
    have hla : la = none := by simpa using hl
    have hg : sa = some g := by simpa using hs
    subst hla; subst hg
    rfl
  · intro file b hm
    rcases la with _ | x
    · rcases sa with _ | y
      · rcases cmd0 with _ | command
        · simp [mainRun, Opt.from_args, Option.or] at hm
        · rcases command with _ | ⟨a, rest⟩
          · simp [mainRun, Opt.from_args, Option.or] at hm
          · simp [mainRun, Opt.from_args, Option.or] at hm
      · have hb : b = false := by
          have := (MainResult.served.inj (by simpa [mainRun, Opt.from_args, Option.or]
            using hm.symm)).2
          simp [this]
        subst hb
        simp
    · have hb : b = true := by
        have := (MainResult.served.inj (by simpa [mainRun, Opt.from_args, Option.or]
          using hm.symm)).2
        simp [this]
      subst hb
      simp

/-- Witness for C8: both flags supplied; the launch file wins and the
browser opens. -/
theorem launch_takes_precedence_over_serve_witness :
    mainRun envAllOk ⟨false, none, none, none, none, some "a.json", some "b.json"⟩
      = MainResult.served "a.json" true :=
  (launch_takes_precedence_over_serve envAllOk
    ⟨false, none, none, none, none, some "a.json", some "b.json"⟩ "a.json" "b.json").1
    rfl rfl

/-- C9: whenever a file to launch or serve is supplied, `main` serves it
and returns success (exit status 0) without ever starting a recording,
even when a target command is also present. -/
theorem serve_skips_recording (env : RecEnv) (c : CmdLine)
    (h : c.launch_arg ≠ none ∨ c.serve_arg ≠ none) :
    ∃ f b, mainRun env c = MainResult.served f b ∧
      exitStatus (mainRun env c) = 0 ∧ (mainRun env c).recordingCall = none := by
  obtain ⟨lwdc, ia, ta, oa, cmd0, la, sa⟩ := c
  rcases la with _ | f
  · rcases sa with _ | g
    · rcases h with h | h <;> simp at h
    · exact ⟨g, false, rfl, rfl, rfl⟩
  · exact ⟨f, true, rfl, rfl, rfl⟩

/-- Witness for C9: a serve file together with a target command; the
command is ignored and the file is served. -/
theorem serve_skips_recording_witness :
    ∃ f b,
      mainRun envAllOk ⟨false, none, none, none, some ["ls"], none, some "b.json"⟩
          = MainResult.served f b ∧
      exitStatus (mainRun envAllOk
        ⟨false, none, none, none, some ["ls"], none, some "b.json"⟩) = 0 ∧
      (mainRun envAllOk
        ⟨false, none, none, none, some ["ls"], none, some "b.json"⟩).recordingCall = none :=
  serve_skips_recording envAllOk ⟨false, none, none, none, some ["ls"], none, some "b.json"⟩
    (Or.inr (by simp))

end Perfrecord
